import Mathlib

/-!
Shallow embedding of the account/profile core of the boltcrxq repository:
the Profile Collection Store (src/stores/profilesStore.ts), its Local
Persistence Adapter (loadFromStorage/saveToStorage over browser-local
storage), and the Session/Account Store (authStore: checkSession, login,
logout, findAccountRow).

Modelling conventions:
- Machine time: each store action is modelled as occurring at a single
  instant `now : Nat`; every `new Date().toISOString()` evaluated inside
  one synchronous action returns that instant.  Timestamps are abstract
  instants (Nat) ordered as real time is.
- Browser-local storage is a map from keys to stored blobs plus a
  `writeOk` flag modelling quota/serialization availability: when
  `writeOk` is false, `setItem` throws in the source and the adapter's
  try/catch silently drops the write.
- A stored blob is classified by exactly the checks `loadFromStorage`
  performs on the raw string: absent, not valid JSON (JSON.parse throws),
  JSON parsing to a falsy value, truthy JSON whose `profiles` field is not
  an array, or a well-formed persisted snapshot (the source then casts the
  parsed object to `PersistedProfiles` without further checks).
- Randomness (`Math.random().toString(36).slice(2, 8)`) is an arbitrary
  string parameter `rand`; `Date.now().toString(36)` is the base-36
  rendering of the instant.
- The async Supabase calls are modelled by value-level results; a promise
  rejection is an `Except.error`, which the source's try/catch converts
  to an absent result.
-/

namespace ClinicalRxQ

/-- Role that a pharmacy profile can assume (types/index.ts RoleType,
the union Pharmacist-PIC | Pharmacist-Staff | Pharmacy Technician). -/
inductive RoleType where
  | pharmacistPIC
  | pharmacistStaff
  | pharmacyTechnician
deriving DecidableEq

/-- Member profile associated with an account (types/index.ts
MemberProfile).  Required at the type level: id, accountId, roleType,
firstName, lastName, createdAt; all other fields are optional. -/
structure MemberProfile where
  id : String
  accountId : String
  roleType : RoleType
  firstName : String
  lastName : String
  phoneNumber : Option String := none
  profileEmail : Option String := none
  dobMonth : Option String := none
  dobDay : Option String := none
  dobYear : Option String := none
  licenseNumber : Option String := none
  nabpEprofileId : Option String := none
  isActive : Option Bool := none
  createdAt : Nat
  updatedAt : Option Nat := none
deriving DecidableEq

/-- Shape of the persisted payload for a given user
(profilesStore.ts PersistedProfiles). -/
structure PersistedProfiles where
  profiles : List MemberProfile
  currentProfileId : Option String
  updatedAt : Nat
deriving DecidableEq

/-- Build a localStorage key for a user's profiles
(profilesStore.ts storageKey). -/
def storageKey (userId : String) : String :=
  "profiles:" ++ userId

/-- Classification of a raw string stored under a key, by exactly the
guards loadFromStorage applies to it.
- notJson: JSON.parse throws on the raw string (this also covers the
  empty string, which is both falsy and unparsable).
- jsonFalsy: JSON.parse succeeds and yields a falsy value (null, false,
  0, the empty string), so the source's truthiness guard rejects it.
- jsonNoArray: JSON.parse succeeds and yields a truthy value whose
  profiles field is not an array.
- wellFormed: JSON.parse yields an object of the persisted snapshot
  shape; the source casts it to PersistedProfiles and returns it. -/
inductive StoredBlob where
  | notJson
  | jsonFalsy
  | jsonNoArray
  | wellFormed (p : PersistedProfiles)
deriving DecidableEq

/-- Browser-local key-value storage: the key-to-blob map plus a flag
modelling whether setItem currently succeeds (quota/serialization). -/
structure Storage where
  map : String → Option StoredBlob
  writeOk : Bool

/-- Write a value under a key; when writeOk is false the underlying
setItem throws and the caller's try/catch drops the write. -/
def setItem (st : Storage) (key : String) (v : StoredBlob) : Storage :=
  if st.writeOk then
    { st with map := fun k => if k = key then some v else st.map k }
  else st

/-- Safe JSON parse from localStorage (profilesStore.ts loadFromStorage):
absent key, unparsable content, falsy parse results, and parses whose
profiles field is not an array all yield null; the function is total, so
it never throws to its caller. -/
def loadFromStorage (st : Storage) (userId : String) : Option PersistedProfiles :=
  match st.map (storageKey userId) with
  | none => none
  | some StoredBlob.notJson => none
  | some StoredBlob.jsonFalsy => none
  | some StoredBlob.jsonNoArray => none
  | some (StoredBlob.wellFormed p) => some p

/-- Save to localStorage (profilesStore.ts saveToStorage): serializes the
payload (a well-formed snapshot blob) under the derived key; write
failures are swallowed by setItem's model of the try/catch. -/
def saveToStorage (st : Storage) (userId : String) (payload : PersistedProfiles) : Storage :=
  setItem st (storageKey userId) (StoredBlob.wellFormed payload)

/-- Generate a simple unique id (profilesStore.ts uid): the base-36
rendering of the current instant, a dash, and six random characters. -/
def uid (now : Nat) (rand : String) : String :=
  String.mk (Nat.toDigits 36 now) ++ "-" ++ rand

/-- In-memory state of the Profile Collection Store
(profilesStore.ts ProfilesState data fields). -/
structure StoreState where
  profiles : List MemberProfile
  currentProfileId : Option String
  loadedForUserId : Option String
deriving DecidableEq

/-- Combined world the store acts on: its in-memory state, the
browser-local storage, and an instrumentation counter of storage reads
(the storage-read counter mock of the spec; loadFromStorage is the only
reader in the source store). -/
structure World where
  store : StoreState
  storage : Storage
  reads : Nat

/-- Caller-supplied data for addProfile: every MemberProfile field except
id and the two timestamps (the source's Omit type). -/
structure ProfileData where
  accountId : String
  roleType : RoleType
  firstName : String
  lastName : String
  phoneNumber : Option String := none
  profileEmail : Option String := none
  dobMonth : Option String := none
  dobDay : Option String := none
  dobYear : Option String := none
  licenseNumber : Option String := none
  nabpEprofileId : Option String := none
  isActive : Option Bool := none
deriving DecidableEq

/-- Partial MemberProfile used as the changes argument of updateProfile:
every field, including id and accountId, may be present or absent. -/
structure ProfileChanges where
  id : Option String := none
  accountId : Option String := none
  roleType : Option RoleType := none
  firstName : Option String := none
  lastName : Option String := none
  phoneNumber : Option String := none
  profileEmail : Option String := none
  dobMonth : Option String := none
  dobDay : Option String := none
  dobYear : Option String := none
  licenseNumber : Option String := none
  nabpEprofileId : Option String := none
  isActive : Option Bool := none
  createdAt : Option Nat := none
deriving DecidableEq

/-- Presence-aware merge of one optional field: a field present in the
spread changes object overrides the old value, an absent one keeps it. -/
def mergeOpt {α : Type} (c old : Option α) : Option α :=
  match c with
  | some v => some v
  | none => old

/-- Shallow merge of changes onto a profile with a refreshed update
timestamp, as the source's spread does in updateProfile:
the profile, then the changes, then updatedAt set to now. -/
def applyChanges (p : MemberProfile) (c : ProfileChanges) (now : Nat) : MemberProfile :=
  { id := c.id.getD p.id
    accountId := c.accountId.getD p.accountId
    roleType := c.roleType.getD p.roleType
    firstName := c.firstName.getD p.firstName
    lastName := c.lastName.getD p.lastName
    phoneNumber := mergeOpt c.phoneNumber p.phoneNumber
    profileEmail := mergeOpt c.profileEmail p.profileEmail
    dobMonth := mergeOpt c.dobMonth p.dobMonth
    dobDay := mergeOpt c.dobDay p.dobDay
    dobYear := mergeOpt c.dobYear p.dobYear
    licenseNumber := mergeOpt c.licenseNumber p.licenseNumber
    nabpEprofileId := mergeOpt c.nabpEprofileId p.nabpEprofileId
    isActive := mergeOpt c.isActive p.isActive
    createdAt := c.createdAt.getD p.createdAt
    updatedAt := some now }

/-- Ensure profiles are loaded for the given user id, idempotently
(profilesStore.ts ensureLoaded): early return when loadedForUserId already
equals userId, otherwise one storage read; on a hit the in-memory state is
replaced by the loaded snapshot, on a miss it is initialized empty and the
empty snapshot is eagerly persisted. -/
def ensureLoaded (userId : String) (now : Nat) (w : World) : World :=
  if w.store.loadedForUserId = some userId then w
  else
    match loadFromStorage w.storage userId with
    | some persisted =>
      { w with
          store :=
            { profiles := persisted.profiles
              currentProfileId := persisted.currentProfileId
              loadedForUserId := some userId }
          reads := w.reads + 1 }
    | none =>
      { w with
          store :=
            { profiles := []
              currentProfileId := none
              loadedForUserId := some userId }
          storage :=
            saveToStorage w.storage userId
              { profiles := [], currentProfileId := none, updatedAt := now }
          reads := w.reads + 1 }

/-- Set the current active profile id, persisted under the loaded user
when one is set (profilesStore.ts setCurrentProfile). -/
def setCurrentProfile (profileId : Option String) (now : Nat) (w : World) : World :=
  match w.store.loadedForUserId with
  | some u =>
    { w with
        store := { w.store with currentProfileId := profileId }
        storage :=
          saveToStorage w.storage u
            { profiles := w.store.profiles
              currentProfileId := profileId
              updatedAt := now } }
  | none =>
    { w with store := { w.store with currentProfileId := profileId } }

/-- Add a new profile (profilesStore.ts addProfile): builds the profile
from the supplied data with a generated id and now as both timestamps,
appends it, keeps the previous selection or defaults to the new profile,
rebinds loadedForUserId to the supplied user id, persists under that id,
and returns the created profile. -/
def addProfile (userId : String) (data : ProfileData) (now : Nat) (rand : String)
    (w : World) : MemberProfile × World :=
  let profile : MemberProfile :=
    { id := uid now rand
      accountId := data.accountId
      roleType := data.roleType
      firstName := data.firstName
      lastName := data.lastName
      phoneNumber := data.phoneNumber
      profileEmail := data.profileEmail
      dobMonth := data.dobMonth
      dobDay := data.dobDay
      dobYear := data.dobYear
      licenseNumber := data.licenseNumber
      nabpEprofileId := data.nabpEprofileId
      isActive := data.isActive
      createdAt := now
      updatedAt := some now }
  let next := w.store.profiles ++ [profile]
  let nextCurrent := w.store.currentProfileId.getD profile.id
  (profile,
   { w with
       store :=
         { profiles := next
           currentProfileId := some nextCurrent
           loadedForUserId := some userId }
       storage :=
         saveToStorage w.storage userId
           { profiles := next
             currentProfileId := some nextCurrent
             updatedAt := now } })

/-- Update an existing profile by id (profilesStore.ts updateProfile):
shallow-merges the changes onto every profile whose id matches, persists
under the supplied user id; the selection is unchanged. -/
def updateProfile (userId : String) (id : String) (c : ProfileChanges) (now : Nat)
    (w : World) : World :=
  let next := w.store.profiles.map fun p => if p.id = id then applyChanges p c now else p
  { w with
      store := { w.store with profiles := next }
      storage :=
        saveToStorage w.storage userId
          { profiles := next
            currentProfileId := w.store.currentProfileId
            updatedAt := now } }

/-- Remove a profile by id (profilesStore.ts removeProfile): filters out
matching profiles; when the selection equals the removed id it falls back
to the first remaining profile or null; persists under the supplied user
id. -/
def removeProfile (userId : String) (id : String) (now : Nat) (w : World) : World :=
  let next := w.store.profiles.filter fun p => p.id != id
  let nextCurrent :=
    if w.store.currentProfileId = some id then next.head?.map (fun p => p.id)
    else w.store.currentProfileId
  { w with
      store :=
        { profiles := next
          currentProfileId := nextCurrent
          loadedForUserId := w.store.loadedForUserId }
      storage :=
        saveToStorage w.storage userId
          { profiles := next
            currentProfileId := nextCurrent
            updatedAt := now } }

/-- Reset the store, e.g. on logout (profilesStore.ts reset): clears all
in-memory state including loadedForUserId; storage is untouched. -/
def resetStore (w : World) : World :=
  { w with store := { profiles := [], currentProfileId := none, loadedForUserId := none } }

/-- One recorded addProfile invocation, for reasoning about sequences of
add calls. -/
structure AddCall where
  userId : String
  data : ProfileData
  now : Nat
  rand : String

/-- Run a sequence of addProfile calls in order, discarding the returned
profiles. -/
def runAdds (w : World) (calls : List AddCall) : World :=
  calls.foldl (fun acc c => (addProfile c.userId c.data c.now c.rand acc).2) w

/-- Authenticated user identity from the external auth provider
(Supabase auth.users): identifier and, possibly, an email. -/
structure AuthUser where
  id : String
  email : Option String
deriving DecidableEq

/-- Live authentication grant issued by the external auth provider; the
opaque token material is irrelevant to the store, only the associated
user identity is read. -/
structure Session where
  user : AuthUser
deriving DecidableEq

/-- Row of the external 'accounts' relation as the client may receive it:
every column except id can be absent at runtime (schema variants, RLS). -/
structure AccountRow where
  id : String
  email : Option String := none
  pharmacy_name : Option String := none
  pharmacy_phone : Option String := none
  subscription_status : Option String := none
  created_at : Option String := none
  updated_at : Option String := none
  address1 : Option String := none
  city : Option String := none
  state : Option String := none
  zipcode : Option String := none
  user_id : Option String := none
deriving DecidableEq

/-- Account UI type (types/index.ts Account), runtime-faithful: fields the
row mapping copies without a fallback stay optional, and the
subscription-status cast in the source is unchecked, so the field is an
arbitrary string here. -/
structure Account where
  id : String
  email : Option String
  pharmacyName : Option String
  pharmacyPhone : Option String
  subscriptionStatus : String
  createdAt : Option String
  updatedAt : Option String
  address1 : Option String
  city : Option String
  state : Option String
  zipcode : Option String
deriving DecidableEq

/-- JavaScript or-default on the subscription status: a missing or empty
(falsy) column value becomes inactive, anything else passes through. -/
def subStatusOf (s : Option String) : String :=
  match s with
  | none => "inactive"
  | some v => if v = "" then "inactive" else v

/-- Map a database row (snake case) to the Account UI type (camel case)
(authStore mapRowToAccount). -/
def mapRowToAccount (row : AccountRow) : Account :=
  { id := row.id
    email := row.email
    pharmacyName := row.pharmacy_name
    pharmacyPhone := row.pharmacy_phone
    subscriptionStatus := subStatusOf row.subscription_status
    createdAt := row.created_at
    updatedAt := row.updated_at
    address1 := row.address1
    city := row.city
    state := row.state
    zipcode := row.zipcode }

/-- Result of one awaited supabase select: an error flag and the data,
which may be null or an array of rows. -/
structure QueryResp where
  error : Bool
  data : Option (List AccountRow)
deriving DecidableEq

/-- Guard the source applies to each strategy's response: no error, data
present, and at least one row; the first row is the hit. -/
def queryHit (r : QueryResp) : Option AccountRow :=
  if r.error then none
  else
    match r.data with
    | none => none
    | some rows => rows.head?

/-- External row-storage behaviour for the three account lookups issued
by findAccountRow; an Except.error models the awaited promise rejecting,
which the source's surrounding try/catch swallows. -/
structure Db where
  byId : Except Unit QueryResp
  byUserId : Except Unit QueryResp
  byEmail : Except Unit QueryResp

/-- Best-effort strategy to locate the account row for an auth user
(authStore findAccountRow): try accounts.id, then accounts.user_id, then
accounts.email (the last only when the user has an email), stopping at
the first hit; any rejection is caught and yields null.  The function is
total: account resolution never raises. -/
def findAccountRow (user : AuthUser) (db : Db) : Option AccountRow :=
  let attempt : Except Unit (Option AccountRow) := do
    let r1 ← db.byId
    match queryHit r1 with
    | some row => pure (some row)
    | none => do
      let r2 ← db.byUserId
      match queryHit r2 with
      | some row => pure (some row)
      | none =>
        match user.email with
        | none => pure none
        | some _ => do
          let r3 ← db.byEmail
          match queryHit r3 with
          | some row => pure (some row)
          | none => pure none
  match attempt with
  | Except.ok v => v
  | Except.error _ => none

/-- In-memory state of the Session/Account Store (authStore AuthState
data fields). -/
structure AuthStoreState where
  session : Option Session
  user : Option AuthUser
  account : Option Account
  isAuthenticated : Bool
deriving DecidableEq

/-- Initial empty auth state (authStore initial state). -/
def initialAuthState : AuthStoreState :=
  { session := none, user := none, account := none, isAuthenticated := false }

/-- External environment observed by checkSession: the provider's current
session and the row storage answering the lookups. -/
structure AuthEnv where
  currentSession : Option Session
  db : Db

/-- Hydrate the store from the provider's current session (authStore
checkSession): no session clears everything; a session sets
isAuthenticated unconditionally and enriches the account best-effort. -/
def checkSession (env : AuthEnv) (_st : AuthStoreState) : AuthStoreState :=
  match env.currentSession with
  | none => initialAuthState
  | some s =>
    let row := findAccountRow s.user env.db
    { session := some s
      user := some s.user
      account := row.map mapRowToAccount
      isAuthenticated := true }

/-- Payload of a successful signInWithPassword call: possibly a session,
and the signed-in user identity. -/
structure LoginData where
  session : Option Session
  user : AuthUser
deriving DecidableEq

/-- Sign in with email and password (authStore login).  The provider's
outcome is the signInResult argument: an error propagates to the caller
with the state untouched; success without a session clears state and
returns false; success with a session sets state as checkSession does and
returns true. -/
def login (signInResult : Except String LoginData) (db : Db) (_st : AuthStoreState) :
    Except String (Bool × AuthStoreState) :=
  match signInResult with
  | Except.error e => Except.error e
  | Except.ok d =>
    match d.session with
    | none => Except.ok (false, initialAuthState)
    | some s =>
      let row := findAccountRow d.user db
      Except.ok (true,
        { session := some s
          user := some d.user
          account := row.map mapRowToAccount
          isAuthenticated := true })

/-- Sign out (authStore logout): the provider is instructed to terminate
the session; its outcome (signOutErr, an error report the source never
reads) is ignored and the local state is cleared unconditionally. -/
def logout (_signOutErr : Option String) (_st : AuthStoreState) : AuthStoreState :=
  initialAuthState

/-- Storage variant holding a given blob (or nothing) under a given key,
the rest of the map unchanged; used to state adapter properties for every
possible raw content of one key. -/
def withBlob (st : Storage) (key : String) (v : Option StoredBlob) : Storage :=
  { map := fun k => if k = key then v else st.map k, writeOk := st.writeOk }

/-- Empty storage whose writes succeed. -/
def emptyStorage : Storage :=
  { map := fun _ => none, writeOk := true }

/-- Concrete profile fixture owned by account A. -/
def pA1 : MemberProfile :=
  { id := "p1", accountId := "A", roleType := RoleType.pharmacistPIC,
    firstName := "Ada", lastName := "Lovelace", createdAt := 1 }

/-- Second concrete profile fixture owned by account A. -/
def pA2 : MemberProfile :=
  { id := "p2", accountId := "A", roleType := RoleType.pharmacyTechnician,
    firstName := "Grace", lastName := "Hopper", createdAt := 2 }

/-- Concrete world fixture: account A loaded with two profiles, the first
one selected, empty storage. -/
def wA : World :=
  { store := { profiles := [pA1, pA2], currentProfileId := some "p1",
               loadedForUserId := some "A" },
    storage := emptyStorage,
    reads := 0 }

/-- Concrete world fixture whose selection dangles: it names an id that no
profile in the collection carries (reachable because setCurrentProfile
never validates its argument). -/
def wDangling : World :=
  { store := { profiles := [pA1, pA2], currentProfileId := some "ghost",
               loadedForUserId := some "A" },
    storage := emptyStorage,
    reads := 0 }

/-- Fixture data for the concrete scenario: the caller-supplied fields of
the Ada Lovelace technician profile (the modal supplies accountId inside
the data object, mirroring its onSubmit call). -/
def adaData : ProfileData :=
  { accountId := "acct-1", roleType := RoleType.pharmacyTechnician,
    firstName := "Ada", lastName := "Lovelace" }

/-- Fixture changes for the concrete scenario: set only the license
number. -/
def licenseChange : ProfileChanges :=
  { licenseNumber := some "TX-12345" }

/-- Fixture caller data owned by account A. -/
def dataTech : ProfileData :=
  { accountId := "A", roleType := RoleType.pharmacyTechnician,
    firstName := "Tess", lastName := "Ward" }

/-- The concrete scenario's add step, from a fresh store over the given
storage: addProfile acct-1 with the Ada data at instant n1. -/
def scenarioAdd (stor : Storage) (k n1 : Nat) (rand : String) : MemberProfile × World :=
  addProfile "acct-1" adaData n1 rand
    { store := { profiles := [], currentProfileId := none, loadedForUserId := none },
      storage := stor, reads := k }

/-- The concrete scenario's update step: updateProfile on the id returned
by the add step, setting the license number at instant n2. -/
def scenarioUpdate (stor : Storage) (k n1 n2 : Nat) (rand : String) : World :=
  updateProfile "acct-1" (scenarioAdd stor k n1 rand).1.id licenseChange n2
    (scenarioAdd stor k n1 rand).2

/-- Every run of ensureLoaded leaves loadedForUserId equal to the
requested user id, in each of its three branches. -/
theorem ensureLoaded_sets_loaded (a : String) (n : Nat) (w : World) :
    (ensureLoaded a n w).store.loadedForUserId = some a := by
  unfold ensureLoaded
  split
  · assumption
  · split <;> rfl

/-- An addProfile call keeps a previously present selection. -/
theorem addProfile_keeps_selection (u : String) (d : ProfileData) (n : Nat) (r : String)
    (w : World) (x : String) (h : w.store.currentProfileId = some x) :
    ((addProfile u d n r w).2).store.currentProfileId = some x := by
  simp [addProfile, h]

/-- A whole sequence of addProfile calls keeps a previously present
selection. -/
theorem runAdds_keeps_selection (calls : List AddCall) (w : World) (x : String)
    (h : w.store.currentProfileId = some x) :
    (runAdds w calls).store.currentProfileId = some x := by
  induction calls generalizing w with
  | nil => exact h
  | cons c cs ih =>
    exact ih _ (addProfile_keeps_selection c.userId c.data c.now c.rand w x h)

/-- A generated id is never the empty string: it always contains the dash
between the time part and the random part. -/
theorem uid_ne_empty (n : Nat) (r : String) : uid n r ≠ "" := by
  intro h
  have hd : (uid n r).data = ([] : List Char) := by rw [h]
  simp only [uid, String.data_append] at hd
  simp at hd

/-- C1.  Idempotent hydration: when loadedForUserId already equals the
requested account id, ensureLoaded is a no-op on the whole world (state,
storage, and the storage-read counter), and a second ensureLoaded for the
same account right after a first one changes nothing. -/
theorem ensureLoaded_idempotent (w : World) (a : String) (n1 n2 : Nat) :
    (w.store.loadedForUserId = some a → ensureLoaded a n1 w = w)
    ∧ ensureLoaded a n2 (ensureLoaded a n1 w) = ensureLoaded a n1 w := by
  constructor
  · intro h
    simp [ensureLoaded, h]
  · have h2 := ensureLoaded_sets_loaded a n1 w
    generalize hW : ensureLoaded a n1 w = W at h2 ⊢
    simp [ensureLoaded, h2]

/-- Witness for C1 at a loaded concrete world. -/
theorem ensureLoaded_idempotent_witness :
    ensureLoaded "A" 5 wA = wA
    ∧ ensureLoaded "A" 6 (ensureLoaded "A" 5 wA) = ensureLoaded "A" 5 wA :=
  ⟨(ensureLoaded_idempotent wA "A" 5 6).1 rfl, (ensureLoaded_idempotent wA "A" 5 6).2⟩

/-- C3 counterexample.  The claim says that when no profile matches the
removed id the selection is unchanged; but with a dangling selection equal
to the removed id (no profile carries id ghost), removeProfile leaves the
collection intact yet moves the selection to the first profile. -/
theorem removeProfile_dangling_selection_cex :
    wDangling.store.profiles.map MemberProfile.id = ["p1", "p2"]
    ∧ wDangling.store.currentProfileId = some "ghost"
    ∧ (removeProfile "A" "ghost" 5 wDangling).store.profiles.map MemberProfile.id
        = ["p1", "p2"]
    ∧ (removeProfile "A" "ghost" 5 wDangling).store.currentProfileId = some "p1" := by
  decide

/-- C3 (amended).  removeProfile removes exactly the profiles whose id
matches; whenever the pre-state selection equals the removed id (whether
or not any profile matched it), the selection falls back to the first
remaining profile in collection order, or null if none remain; otherwise
the selection is unchanged. -/
theorem removeProfile_selection_fallback (w : World) (u i : String) (n : Nat) :
    (removeProfile u i n w).store.profiles
        = w.store.profiles.filter (fun p => p.id != i)
    ∧ ((removeProfile u i n w).store.profiles.all fun p => p.id != i) = true
    ∧ (removeProfile u i n w).store.currentProfileId
        = (if w.store.currentProfileId = some i
           then (w.store.profiles.filter (fun p => p.id != i)).head?.map (fun p => p.id)
           else w.store.currentProfileId) := by
  refine ⟨rfl, ?_, rfl⟩
  simp only [removeProfile, List.all_eq_true]
  intro p hp
  exact (List.mem_filter.mp hp).2

/-- C4.  First-profile-is-default selection: from a state with no
selection, the first addProfile selects the newly created profile, and no
subsequent sequence of addProfile calls changes that selection. -/
theorem addProfile_first_is_default (w : World) (c : AddCall) (calls : List AddCall)
    (h : w.store.currentProfileId = none) :
    ((addProfile c.userId c.data c.now c.rand w).2).store.currentProfileId
        = some (addProfile c.userId c.data c.now c.rand w).1.id
    ∧ (runAdds ((addProfile c.userId c.data c.now c.rand w).2) calls).store.currentProfileId
        = some (addProfile c.userId c.data c.now c.rand w).1.id := by
  have h1 : ((addProfile c.userId c.data c.now c.rand w).2).store.currentProfileId
      = some (addProfile c.userId c.data c.now c.rand w).1.id := by
    simp [addProfile, h]
  exact ⟨h1, runAdds_keeps_selection calls _ _ h1⟩

/-- Witness for C4 from a fresh world with one further add call. -/
theorem addProfile_first_is_default_witness :
    ((addProfile "A" dataTech 4 "r1" (resetStore wA)).2).store.currentProfileId
        = some (addProfile "A" dataTech 4 "r1" (resetStore wA)).1.id
    ∧ (runAdds ((addProfile "A" dataTech 4 "r1" (resetStore wA)).2)
          [{ userId := "A", data := dataTech, now := 6, rand := "r2" }]).store.currentProfileId
        = some (addProfile "A" dataTech 4 "r1" (resetStore wA)).1.id :=
  addProfile_first_is_default (resetStore wA)
    { userId := "A", data := dataTech, now := 4, rand := "r1" }
    [{ userId := "A", data := dataTech, now := 6, rand := "r2" }] rfl

/-- C5.  Malformed-storage tolerance: for every account id and every
underlying storage, load returns absent when the stored value is missing,
is not valid JSON, parses to a falsy value, or parses to a value whose
profiles field is not an array; being a total function, it never throws. -/
theorem loadFromStorage_malformed_tolerant (st : Storage) (a : String) :
    loadFromStorage (withBlob st (storageKey a) none) a = none
    ∧ loadFromStorage (withBlob st (storageKey a) (some StoredBlob.notJson)) a = none
    ∧ loadFromStorage (withBlob st (storageKey a) (some StoredBlob.jsonFalsy)) a = none
    ∧ loadFromStorage (withBlob st (storageKey a) (some StoredBlob.jsonNoArray)) a = none := by
  refine ⟨?_, ?_, ?_, ?_⟩ <;> simp [loadFromStorage, withBlob]

/-- C6.  Round-trip persistence: when the write succeeds, a load for the
same account right after a save returns the saved snapshot
field-for-field. -/
theorem save_load_roundtrip (st : Storage) (a : String) (p : PersistedProfiles)
    (h : st.writeOk = true) :
    loadFromStorage (saveToStorage st a p) a = some p := by
  simp [loadFromStorage, saveToStorage, setItem, h]

/-- Witness for C6 on empty writable storage and a concrete snapshot. -/
theorem save_load_roundtrip_witness :
    loadFromStorage
      (saveToStorage emptyStorage "A"
        { profiles := [pA1], currentProfileId := some "p1", updatedAt := 3 }) "A"
      = some { profiles := [pA1], currentProfileId := some "p1", updatedAt := 3 } :=
  save_load_roundtrip emptyStorage "A"
    { profiles := [pA1], currentProfileId := some "p1", updatedAt := 3 } rfl

/-- C9.  Logout clears state unconditionally: whatever the provider call
reports, the local state becomes the initial empty state, with session,
user, and account null and isAuthenticated false. -/
theorem logout_clears_state (r : Option String) (st : AuthStoreState) :
    logout r st = initialAuthState
    ∧ (logout r st).session = none
    ∧ (logout r st).user = none
    ∧ (logout r st).account = none
    ∧ (logout r st).isAuthenticated = false :=
  ⟨rfl, rfl, rfl, rfl, rfl⟩

/-- Database fixture on which all three lookup strategies miss: the first
query errors, the second returns an empty row set, and the third rejects
outright. -/
def failingDb : Db :=
  { byId := Except.ok { error := true, data := none },
    byUserId := Except.ok { error := false, data := some [] },
    byEmail := Except.error () }

/-- Session fixture for a user with an email. -/
def sessionU1 : Session :=
  { user := { id := "u1", email := some "u1@example.com" } }

/-- Auth environment fixture: a live session whose account cannot be
resolved. -/
def envNoAccount : AuthEnv :=
  { currentSession := some sessionU1, db := failingDb }

/-- C2.  Authentication is independent of account linkage: with a live
session, checkSession sets isAuthenticated true for every database
behaviour, and when account resolution is absent it sets account null;
login behaves the same on a successful sign-in that carries a session.
Account resolution itself is a total function, so it never raises. -/
theorem auth_independent_of_account_linkage
    (env : AuthEnv) (st st2 : AuthStoreState) (s : Session) (d : LoginData) (db : Db) :
    (env.currentSession = some s →
      (checkSession env st).isAuthenticated = true
      ∧ (findAccountRow s.user env.db = none → (checkSession env st).account = none))
    ∧ (d.session = some s → findAccountRow d.user db = none →
        login (Except.ok d) db st2
          = Except.ok (true,
              { session := some s, user := some d.user, account := none,
                isAuthenticated := true })) := by
  constructor
  · intro h
    refine ⟨?_, ?_⟩
    · simp [checkSession, h]
    · intro hf
      simp [checkSession, h, hf]
  · intro hs hf
    simp [login, hs, hf]

/-- Witness for C2 in the fixture environment where every lookup
strategy misses. -/
theorem auth_independent_of_account_linkage_witness :
    ((checkSession envNoAccount initialAuthState).isAuthenticated = true
      ∧ (checkSession envNoAccount initialAuthState).account = none)
    ∧ login (Except.ok { session := some sessionU1, user := sessionU1.user })
        failingDb initialAuthState
        = Except.ok (true,
            { session := some sessionU1, user := some sessionU1.user, account := none,
              isAuthenticated := true }) :=
  have h := auth_independent_of_account_linkage envNoAccount initialAuthState
    initialAuthState sessionU1 { session := some sessionU1, user := sessionU1.user }
    failingDb
  ⟨⟨(h.1 rfl).1, (h.1 rfl).2 rfl⟩, h.2 rfl rfl⟩

/-- C7.  Concrete add/update scenario: adding the Ada Lovelace technician
profile to a fresh store returns a profile with a non-empty generated id,
account id acct-1, the two required name fields set, all optional fields
absent, and equal creation and update timestamps; a later license-number
update leaves the names unchanged, sets the license number, and stamps a
strictly later update instant. -/
theorem add_update_concrete (stor : Storage) (k n1 n2 : Nat) (rand : String)
    (hlt : n1 < n2) :
    (scenarioAdd stor k n1 rand).1.id ≠ ""
    ∧ (scenarioAdd stor k n1 rand).1.accountId = "acct-1"
    ∧ (scenarioAdd stor k n1 rand).1.roleType = RoleType.pharmacyTechnician
    ∧ (scenarioAdd stor k n1 rand).1.firstName = "Ada"
    ∧ (scenarioAdd stor k n1 rand).1.lastName = "Lovelace"
    ∧ (scenarioAdd stor k n1 rand).1.phoneNumber = none
    ∧ (scenarioAdd stor k n1 rand).1.profileEmail = none
    ∧ (scenarioAdd stor k n1 rand).1.dobMonth = none
    ∧ (scenarioAdd stor k n1 rand).1.dobDay = none
    ∧ (scenarioAdd stor k n1 rand).1.dobYear = none
    ∧ (scenarioAdd stor k n1 rand).1.licenseNumber = none
    ∧ (scenarioAdd stor k n1 rand).1.nabpEprofileId = none
    ∧ (scenarioAdd stor k n1 rand).1.isActive = none
    ∧ (scenarioAdd stor k n1 rand).1.createdAt = n1
    ∧ (scenarioAdd stor k n1 rand).1.updatedAt = some (scenarioAdd stor k n1 rand).1.createdAt
    ∧ (scenarioUpdate stor k n1 n2 rand).store.profiles
        = [{ (scenarioAdd stor k n1 rand).1 with
              licenseNumber := some "TX-12345", updatedAt := some n2 }]
    ∧ (scenarioAdd stor k n1 rand).1.updatedAt = some n1
    ∧ n1 < n2 := by
  refine ⟨uid_ne_empty n1 rand, rfl, rfl, rfl, rfl, rfl, rfl, rfl, rfl, rfl, rfl, rfl,
    rfl, rfl, rfl, ?_, rfl, hlt⟩
  simp [scenarioUpdate, scenarioAdd, updateProfile, addProfile, applyChanges,
    adaData, licenseChange, mergeOpt]

/-- Witness for C7 at concrete instants 10 and 11. -/
theorem add_update_concrete_witness :
    10 < 11
    ∧ ((scenarioAdd emptyStorage 0 10 "abc123").1.id ≠ ""
      ∧ (scenarioAdd emptyStorage 0 10 "abc123").1.accountId = "acct-1"
      ∧ (scenarioAdd emptyStorage 0 10 "abc123").1.roleType = RoleType.pharmacyTechnician
      ∧ (scenarioAdd emptyStorage 0 10 "abc123").1.firstName = "Ada"
      ∧ (scenarioAdd emptyStorage 0 10 "abc123").1.lastName = "Lovelace"
      ∧ (scenarioAdd emptyStorage 0 10 "abc123").1.phoneNumber = none
      ∧ (scenarioAdd emptyStorage 0 10 "abc123").1.profileEmail = none
      ∧ (scenarioAdd emptyStorage 0 10 "abc123").1.dobMonth = none
      ∧ (scenarioAdd emptyStorage 0 10 "abc123").1.dobDay = none
      ∧ (scenarioAdd emptyStorage 0 10 "abc123").1.dobYear = none
      ∧ (scenarioAdd emptyStorage 0 10 "abc123").1.licenseNumber = none
      ∧ (scenarioAdd emptyStorage 0 10 "abc123").1.nabpEprofileId = none
      ∧ (scenarioAdd emptyStorage 0 10 "abc123").1.isActive = none
      ∧ (scenarioAdd emptyStorage 0 10 "abc123").1.createdAt = 10
      ∧ (scenarioAdd emptyStorage 0 10 "abc123").1.updatedAt
          = some (scenarioAdd emptyStorage 0 10 "abc123").1.createdAt
      ∧ (scenarioUpdate emptyStorage 0 10 11 "abc123").store.profiles
          = [{ (scenarioAdd emptyStorage 0 10 "abc123").1 with
                licenseNumber := some "TX-12345", updatedAt := some 11 }]
      ∧ (scenarioAdd emptyStorage 0 10 "abc123").1.updatedAt = some 10
      ∧ 10 < 11) :=
  ⟨by decide, add_update_concrete emptyStorage 0 10 11 "abc123" (by decide)⟩

/-- C8 counterexample.  The claim says no store operation reassigns an
existing profile to a different account; but updateProfile shallow-merges
arbitrary partial changes, and a changes object containing an accountId
field moves the matching profile from account A to account B. -/
theorem updateProfile_reassign_cex :
    wA.store.profiles.map MemberProfile.accountId = ["A", "A"]
    ∧ (updateProfile "A" "p1" { accountId := some "B" } 7 wA).store.profiles.map
        MemberProfile.accountId = ["B", "A"]
    ∧ (updateProfile "A" "p1" { accountId := some "B" } 7 wA).store.profiles.map
        MemberProfile.id = ["p1", "p2"] := by
  decide

/-- C8 (amended).  No dedicated reassignment operation exists, and no
store operation changes the owning-account identifier of a profile record
it retains, with the single exception the counterexample forces:
updateProfile can reassign when its changes object carries an accountId
field.  Precisely: updateProfile preserves every profile's accountId
whenever the changes have no accountId field; addProfile appends a
profile owned by the data's accountId and leaves existing records
untouched; removeProfile only removes records; setCurrentProfile and
reset never alter profile records; and ensureLoaded on the already-loaded
account leaves the collection unchanged. -/
theorem profile_owner_stable (w : World) (u i : String) (c : ProfileChanges)
    (d : ProfileData) (n : Nat) (rand : String) (sel : Option String)
    (q : MemberProfile) :
    (c.accountId = none →
      (updateProfile u i c n w).store.profiles.map MemberProfile.accountId
        = w.store.profiles.map MemberProfile.accountId)
    ∧ (addProfile u d n rand w).2.store.profiles.map MemberProfile.accountId
        = w.store.profiles.map MemberProfile.accountId ++ [d.accountId]
    ∧ (q ∈ (removeProfile u i n w).store.profiles → q ∈ w.store.profiles)
    ∧ (setCurrentProfile sel n w).store.profiles = w.store.profiles
    ∧ (resetStore w).store.profiles = []
    ∧ (w.store.loadedForUserId = some u →
        (ensureLoaded u n w).store.profiles = w.store.profiles) := by
  refine ⟨?_, ?_, ?_, ?_, rfl, ?_⟩
  · intro hc
    simp only [updateProfile, List.map_map]
    induction w.store.profiles with
    | nil => rfl
    | cons p ps ih =>
      simp only [List.map_cons, Function.comp_apply] at ih ⊢
      rw [ih]
      by_cases hp : p.id = i
      · simp [hp, applyChanges, hc]
      · simp [hp]
  · simp [addProfile]
  · intro hq
    simp only [removeProfile] at hq
    exact (List.mem_filter.mp hq).1
  · simp only [setCurrentProfile]
    split <;> rfl
  · intro h
    simp [ensureLoaded, h]

/-- Witness for C8 at concrete inputs: an accountId-free update, an add,
a remove, a selection change, a reset, and a repeated hydration on the
loaded account. -/
theorem profile_owner_stable_witness :
    (updateProfile "A" "p2" { firstName := some "Nia" } 9 wA).store.profiles.map
        MemberProfile.accountId
      = wA.store.profiles.map MemberProfile.accountId
    ∧ (addProfile "A" dataTech 9 "rr" wA).2.store.profiles.map MemberProfile.accountId
      = wA.store.profiles.map MemberProfile.accountId ++ ["A"]
    ∧ pA1 ∈ wA.store.profiles
    ∧ (setCurrentProfile (some "p2") 9 wA).store.profiles = wA.store.profiles
    ∧ (resetStore wA).store.profiles = []
    ∧ (ensureLoaded "A" 9 wA).store.profiles = wA.store.profiles :=
  have h := profile_owner_stable wA "A" "p2" { firstName := some "Nia" } dataTech 9
    "rr" (some "p2") pA1
  ⟨h.1 rfl, h.2.1, h.2.2.1 (by decide), h.2.2.2.1, h.2.2.2.2.1, h.2.2.2.2.2 rfl⟩

/-- C10.  addProfile silently rebinds the in-memory collection to the
caller's account id: the post-state loadedForUserId equals the supplied
id, and (when the write succeeds) the storage key derived from that id
now holds the previously in-memory profiles together with the new one,
whatever account they were loaded for. -/
theorem addProfile_rebinds (w : World) (u : String) (d : ProfileData) (n : Nat)
    (rand : String) (h : w.storage.writeOk = true) :
    ((addProfile u d n rand w).2).store.loadedForUserId = some u
    ∧ ((addProfile u d n rand w).2).storage.map (storageKey u)
        = some (StoredBlob.wellFormed
            { profiles := w.store.profiles ++ [(addProfile u d n rand w).1]
              currentProfileId :=
                some (w.store.currentProfileId.getD (addProfile u d n rand w).1.id)
              updatedAt := n }) := by
  refine ⟨rfl, ?_⟩
  simp [addProfile, saveToStorage, setItem, h]

/-- Witness for C10: account A's two-profile collection is rebound and
persisted under account C's key by a single addProfile call for C. -/
theorem addProfile_rebinds_witness :
    ((addProfile "C" dataTech 9 "zz" wA).2).store.loadedForUserId = some "C"
    ∧ ((addProfile "C" dataTech 9 "zz" wA).2).storage.map (storageKey "C")
        = some (StoredBlob.wellFormed
            { profiles := wA.store.profiles ++ [(addProfile "C" dataTech 9 "zz" wA).1]
              currentProfileId :=
                some (wA.store.currentProfileId.getD (addProfile "C" dataTech 9 "zz" wA).1.id)
              updatedAt := 9 }) :=
  addProfile_rebinds wA "C" dataTech 9 "zz" rfl

end ClinicalRxQ
